import Mathlib

/-!
# Verification of the clear-credit-score scoring core

Shallow embedding of the risk-scoring logic of the `clear-credit-score`
repository (src/predict.py, src/batch_predict.py, src/api.py), together
with theorems settling the frozen claims about its specification.

Python floats are modelled as rationals (`ℚ`); dictionaries as functions
into `Option`; exceptions as `Except`; the filesystem as a function from
paths to optionally-present raw bundles.
-/

set_option autoImplicit false

namespace CreditScore

/-- A scalar cell of a feature record / pandas frame: a string category,
a numeric value, or the null/NaN marker produced by `reindex` for
missing columns. -/
inductive Cell where
  | str : String → Cell
  | num : ℚ → Cell
  | null : Cell
  deriving DecidableEq, Repr

/-- The `thresholds` mapping of a bundle, with keys `low` and `medium`
(src/predict.py line 22, src/api.py line 172, src/batch_predict.py line 25). -/
structure Thresholds where
  low : ℚ
  medium : ℚ
  deriving DecidableEq, Repr

/-- The function `categorize` from src/predict.py lines 8–13 (the closure in
src/batch_predict.py lines 33–38 is the same function):

    if prob_default <= thresholds["low"]: return "low"
    if prob_default <= thresholds["medium"]: return "medium"
    return "high"
-/
def categorize (prob_default : ℚ) (thresholds : Thresholds) : String :=
  if prob_default ≤ thresholds.low then "low"
  else if prob_default ≤ thresholds.medium then "medium"
  else "high"

/-- Rank of a risk tier under the order low < medium < high, used to state
monotonicity of `categorize`. -/
def tierRank : String → ℕ
  | "low" => 0
  | "medium" => 1
  | _ => 2

/-- The pydantic `CreditRequest` model of src/api.py lines 13–33: 20 fields,
13 string-typed and 7 integer-typed, all required. -/
structure CreditRequest where
  checking_status : String
  duration : ℤ
  credit_history : String
  purpose : String
  credit_amount : ℤ
  savings_status : String
  employment : String
  installment_commitment : ℤ
  personal_status : String
  other_parties : String
  residence_since : ℤ
  property_magnitude : String
  age : ℤ
  other_payment_plans : String
  housing : String
  existing_credits : ℤ
  job : String
  num_dependents : ℤ
  own_telephone : String
  foreign_worker : String
  deriving DecidableEq, Repr

/-- The `CreditResponse` model of src/api.py lines 35–37. -/
structure CreditResponse where
  prob_default : ℚ
  risk : String
  deriving DecidableEq, Repr

/-- The key/value pairs of `sample.model_dump()`, in field order. -/
def CreditRequest.fieldPairs (s : CreditRequest) : List (String × Cell) :=
  [("checking_status", .str s.checking_status),
   ("duration", .num s.duration),
   ("credit_history", .str s.credit_history),
   ("purpose", .str s.purpose),
   ("credit_amount", .num s.credit_amount),
   ("savings_status", .str s.savings_status),
   ("employment", .str s.employment),
   ("installment_commitment", .num s.installment_commitment),
   ("personal_status", .str s.personal_status),
   ("other_parties", .str s.other_parties),
   ("residence_since", .num s.residence_since),
   ("property_magnitude", .str s.property_magnitude),
   ("age", .num s.age),
   ("other_payment_plans", .str s.other_payment_plans),
   ("housing", .str s.housing),
   ("existing_credits", .num s.existing_credits),
   ("job", .str s.job),
   ("num_dependents", .num s.num_dependents),
   ("own_telephone", .str s.own_telephone),
   ("foreign_worker", .str s.foreign_worker)]

/-- The dictionary `sample.model_dump()`: maps each of the 20 field
names to its cell value, anything else to `none`. -/
def CreditRequest.toRecord (s : CreditRequest) (name : String) : Option Cell :=
  s.fieldPairs.lookup name

/-- Record alignment: `pd.DataFrame([record]).reindex(columns=cols)` restricted to its one row
(src/predict.py line 25, src/api.py line 526) and, row by row,
`df.reindex(columns=cols)` (src/batch_predict.py line 29): each requested
column takes the record's value, and a column absent from the record
becomes the null/NaN marker. Reindexing never rejects a record. -/
def reindexRecord (record : String → Option Cell) (cols : List String) : List Cell :=
  cols.map fun c => (record c).getD Cell.null

/-- The one-row frame `pd.DataFrame([sample.model_dump()]).reindex(columns=cols)`
built by the /predict handler (src/api.py line 526). -/
def buildRow (s : CreditRequest) (cols : List String) : List Cell :=
  reindexRecord s.toRecord cols

/-- Insert a string into a sorted list of strings (ordered lexicographically). -/
def insertSorted (s : String) : List String → List String
  | [] => [s]
  | x :: xs => if s ≤ x then s :: x :: xs else x :: insertSorted s xs

/-- Insertion sort on strings; models the sorted category order that
`astype('category')` assigns to a column's distinct values. -/
def sortStrings : List String → List String
  | [] => []
  | x :: xs => insertSorted x (sortStrings xs)

/-- The categories pandas assigns to an object column: its distinct non-null
values in sorted order. -/
def categoriesOf (col : List String) : List String :=
  sortStrings col.dedup

/-- The category code of a value: its index in the column's category list
(`.cat.codes` for a non-null entry). -/
def catCode (cats : List String) (v : String) : ℕ :=
  cats.findIdx (· == v)

/-- The per-request categorical encoding loop of src/api.py lines 529–530:
`for col in X.select_dtypes(include=['object']).columns:
   X[col] = X[col].astype('category').cat.codes`.
`X` is a one-row frame, so an object-dtype column is exactly a column whose
single cell is a string `v`; its category list is `categoriesOf [v]` and the
cell is replaced by the code of `v`. Numeric cells (int64 dtype) and null
cells (all-NaN float64 columns produced by `reindex`) are not object-dtype
and are left unchanged. -/
def encodeSingleRowCell : Cell → Cell
  | .str v => .num (catCode (categoriesOf [v]) v)
  | c => c

/-- Encoding of the whole one-row frame, column by column. -/
def encodeRow (row : List Cell) : List Cell :=
  row.map encodeSingleRowCell

/-- The heuristic fallback probability of src/api.py line 536:
`min(max(sample.credit_amount / 20000.0, 0.1), 0.9)`. -/
def fallbackProb (s : CreditRequest) : ℚ :=
  min (max ((s.credit_amount : ℚ) / 20000) (1/10)) (9/10)

/-- The body of the /predict handler after the pipe-loaded check
(src/api.py lines 525–537): build the one-row frame, encode categoricals,
call `predict_proba` (modelled as an opaque fallible `classify` on the
encoded row, covering everything the `try` block can raise), and on success
categorize; on any exception substitute the heuristic fallback. -/
def predictHandler (classify : List Cell → Except String ℚ) (cols : List String)
    (thr : Thresholds) (sample : CreditRequest) : CreditResponse :=
  match classify (encodeRow (buildRow sample cols)) with
  | .ok p => ⟨p, categorize p thr⟩
  | .error _ => ⟨fallbackProb sample, categorize (fallbackProb sample) thr⟩

/-- The full /predict endpoint (src/api.py lines 520–537): raises HTTP 503
when no pipe is loaded, otherwise runs the handler body (which never
raises). -/
def predictEndpoint (pipe : Option (List Cell → Except String ℚ))
    (cols : List String) (thr : Thresholds) (sample : CreditRequest) :
    Except ℕ CreditResponse :=
  match pipe with
  | none => .error 503
  | some f => .ok (predictHandler f cols thr sample)

/-- The /predict_batch endpoint (src/api.py lines 539–554): empty input gives
`[]`; otherwise each sample is scored through `predict`, any exception being
replaced by the same heuristic fallback. -/
def predictBatch (pipe : Option (List Cell → Except String ℚ))
    (cols : List String) (thr : Thresholds) (samples : List CreditRequest) :
    List CreditResponse :=
  samples.map fun s =>
    match predictEndpoint pipe cols thr s with
    | .ok r => r
    | .error _ => ⟨fallbackProb s, categorize (fallbackProb s) thr⟩

/-- A concrete, fully-populated request used in closed witnesses. -/
def sampleA : CreditRequest :=
  ⟨"<0", 12, "existing paid", "car (new)", 5000, "<100", ">=7", 2,
   "male single", "none", 3, "real estate", 35, "none", "own", 1,
   "skilled", 1, "yes", "yes"⟩

/-- The fitted pipeline object of a bundle: its `classes_` attribute (absent
for pipelines without it, src/api.py line 175) and its `predict_proba`
probability for a given row and class index, treated as an opaque external
capability. -/
structure Pipe where
  classes : Option (List String)
  predictProba : List Cell → ℕ → ℚ

/-- A deserialized bundle dictionary: the `"pipeline"`, `"feature_columns"`
and `"thresholds"` keys, each possibly absent. -/
structure RawBundle where
  pipeline : Option Pipe
  featureColumns : Option (List String)
  thresholds : Option Thresholds

/-- The exceptions the loading / scoring paths can raise:
`FileNotFoundError` (missing bundle file), `KeyError` (bundle dictionary
missing `"pipeline"` or `"feature_columns"`), `AttributeError`
(`pipe.classes_` absent in src/predict.py line 26), `ValueError`
(`list.index("bad")` with no `"bad"` label, src/predict.py line 26). -/
inductive LoadError where
  | notFound
  | keyErrorPipeline
  | keyErrorFeatureColumns
  | attributeError
  | valueError
  deriving DecidableEq, Repr

/-- The process-wide state populated by `_load_bundle`
(src/api.py lines 156–179): `_PIPE`, `_FEATURE_COLUMNS`, `_THRESHOLDS`,
`_PROBA_IDX`. -/
structure LoadedState where
  pipe : Pipe
  featureColumns : List String
  thresholds : Thresholds
  probaIdx : ℕ

/-- The default thresholds `{"low": 0.20, "medium": 0.50}` substituted when a
bundle has no `"thresholds"` key. -/
def defaultThresholds : Thresholds := ⟨1/5, 1/2⟩

/-- The "best" bundle candidate path (relative to the repository root). -/
def bestPath : String := "models/credit_model_best.joblib"

/-- The default bundle path (relative to the repository root). -/
def defaultPath : String := "models/credit_model.joblib"

/-- Model-path resolution of src/predict.py lines 16–19, used when no
explicit path is given: the best bundle if it exists, else the default. -/
def resolveModelPathPredict (fsHas : String → Bool) : String :=
  if fsHas bestPath then bestPath else defaultPath

/-- Model-path resolution of src/api.py lines 162–164: identical to the
single-sample predictor's. -/
def resolveModelPathApi (fsHas : String → Bool) : String :=
  if fsHas bestPath then bestPath else defaultPath

/-- Model-path resolution of src/batch_predict.py lines 17–21: the third CLI
token when given, else the default bundle path; the filesystem is never
consulted and the best bundle path is never considered. -/
def resolveModelPathBatch (argPath : Option String) : String :=
  argPath.getD defaultPath

/-- Resolution of `_PROBA_IDX` in src/api.py lines 174–179:
`classes.index("bad") if "bad" in classes else 1` when the pipe has a
`classes_` attribute, else the default assumption 1. -/
def apiResolveProbaIdx (pipe : Pipe) : ℕ :=
  match pipe.classes with
  | some cs => if "bad" ∈ cs then cs.findIdx (· == "bad") else 1
  | none => 1

/-- The loader `_load_bundle` of src/api.py lines 156–179 after path resolution (the
preceding `_train_model_if_needed` step mutates the filesystem before this
runs and is treated as part of producing `fs`): check existence, load the
dictionary, read `"pipeline"` and `"feature_columns"` (KeyError when
absent), default the thresholds, resolve `_PROBA_IDX`. -/
def apiLoadBundle (fs : String → Option RawBundle) (path : String) :
    Except LoadError LoadedState :=
  match fs path with
  | none => .error .notFound
  | some b =>
    match b.pipeline with
    | none => .error .keyErrorPipeline
    | some pipe =>
      match b.featureColumns with
      | none => .error .keyErrorFeatureColumns
      | some fc =>
        .ok ⟨pipe, fc, b.thresholds.getD defaultThresholds,
             apiResolveProbaIdx pipe⟩

/-- The startup loader: `_load_bundle` with the path it resolves itself
(src/api.py lines 162–164). -/
def apiStartup (fs : String → Option RawBundle) : Except LoadError LoadedState :=
  apiLoadBundle fs (resolveModelPathApi fun q => (fs q).isSome)

/-- The function `predict_from_dict` of src/predict.py lines 15–28: resolve the model path
(best-then-default when none is given), load the bundle (`joblib.load`
raising on a missing file), read `"pipeline"` and `"feature_columns"`
(KeyError when absent), default the thresholds, reindex the sample, then
select the `"bad"` probability via `list(pipe.classes_).index("bad")`
(AttributeError when `classes_` is absent, ValueError when the label is
absent) and categorize. -/
def predict_from_dict (fs : String → Option RawBundle)
    (sample : String → Option Cell) (modelPath : Option String) :
    Except LoadError CreditResponse :=
  let path :=
    match modelPath with
    | some p => p
    | none => resolveModelPathPredict fun q => (fs q).isSome
  match fs path with
  | none => .error .notFound
  | some b =>
    match b.pipeline with
    | none => .error .keyErrorPipeline
    | some pipe =>
      let thr := b.thresholds.getD defaultThresholds
      match b.featureColumns with
      | none => .error .keyErrorFeatureColumns
      | some fc =>
        match pipe.classes with
        | none => .error .attributeError
        | some cs =>
          if "bad" ∈ cs then
            let p := pipe.predictProba (reindexRecord sample fc)
              (cs.findIdx (· == "bad"))
            .ok ⟨p, categorize p thr⟩
          else .error .valueError

/-- A pipe whose classifier lacks a `"bad"` class label. -/
def noBadPipe : Pipe := ⟨some ["good", "excellent"], fun _ _ => 0⟩

/-- A well-formed bundle built on `noBadPipe`. -/
def noBadBundle : RawBundle := ⟨some noBadPipe, some ["age"], some ⟨1/5, 1/2⟩⟩

/-- A bundle that exists but lacks the `"feature_columns"` key. -/
def corruptBundle : RawBundle := ⟨some ⟨some ["good", "bad"], fun _ _ => 0⟩, none, none⟩

/-- An in-memory CSV frame: a header and rows of cells. -/
structure Df where
  cols : List String
  rows : List (List Cell)

/-- Positional lookup of a named column's value in one row (pandas
label-based indexing of a row). -/
def lookupCol : List String → List Cell → String → Option Cell
  | [], _, _ => none
  | _ :: _, [], _ => none
  | c0 :: cs, v :: vs, c => if c0 = c then some v else lookupCol cs vs c

/-- Frame alignment `df.reindex(columns=fc)` of src/batch_predict.py line 29: every row is
aligned to the bundle's feature columns, missing columns becoming null. -/
def reindexDf (df : Df) (fc : List String) : List (List Cell) :=
  df.rows.map fun r => reindexRecord (lookupCol df.cols r) fc

/-- Index of a column name in a header (first match). -/
def colIdx : List String → String → ℕ
  | [], _ => 0
  | c0 :: cs, c => if c0 = c then 0 else colIdx cs c + 1

/-- Pandas column assignment `df[name] = vals`: overwrite in place when the
column exists, otherwise append it on the right, extending every row. -/
def dfSetCol (df : Df) (name : String) (vals : List Cell) : Df :=
  if name ∈ df.cols then
    ⟨df.cols, (df.rows.zip vals).map fun rv => rv.1.set (colIdx df.cols name) rv.2⟩
  else
    ⟨df.cols ++ [name], (df.rows.zip vals).map fun rv => rv.1 ++ [rv.2]⟩

/-- The frame transformation of src/batch_predict.py lines 28–42:
reindex the rows to `feature_columns`, compute each row's `"bad"`
probability (`model` stands for `pipe.predict_proba(...)[:, proba_idx]`),
then assign the `prob_default` and `risk` columns. -/
def batchMain (fc : List String) (thr : Thresholds) (model : List Cell → ℚ)
    (df : Df) : Df :=
  dfSetCol
    (dfSetCol df "prob_default" (((reindexDf df fc).map model).map Cell.num))
    "risk"
    ((((reindexDf df fc).map model).map fun p => categorize p thr).map Cell.str)

/-- The probability the batch runner computes for row `i` of the input frame. -/
def batchRowScore (df : Df) (fc : List String) (model : List Cell → ℚ)
    (i : ℕ) : ℚ :=
  model (reindexRecord (lookupCol df.cols (df.rows.getD i [])) fc)

/-- Variant of `sampleA` with every string-typed field changed and all numeric fields
kept; used to witness that /predict ignores string values. -/
def sampleB : CreditRequest :=
  { sampleA with
    checking_status := "no checking"
    credit_history := "all paid"
    purpose := "business"
    savings_status := ">=1000"
    employment := "unemployed"
    personal_status := "female single"
    other_parties := "guarantor"
    property_magnitude := "car"
    other_payment_plans := "bank"
    housing := "rent"
    job := "unskilled - resident"
    own_telephone := "no"
    foreign_worker := "no" }

end CreditScore

namespace CreditScore

/-- C1: for every probability `p` and every thresholds mapping (keys `low`,
`medium`, carrying the data-model invariant `0 ≤ low ≤ medium ≤ 1`),
`categorize` returns `"low"` when `p ≤ low`, `"medium"` when
`low < p ≤ medium`, `"high"` when `p > medium`; and for thresholds
`{low: 0.20, medium: 0.50}` it maps 0.19 and 0.20 to `"low"`, 0.35 to
`"medium"`, 0.51 to `"high"`. -/
theorem c1_categorize_bands :
    (∀ (p low medium : ℚ), 0 ≤ low → low ≤ medium → medium ≤ 1 →
      0 ≤ p → p ≤ 1 →
      ((p ≤ low → categorize p ⟨low, medium⟩ = "low") ∧
       (low < p → p ≤ medium → categorize p ⟨low, medium⟩ = "medium") ∧
       (medium < p → categorize p ⟨low, medium⟩ = "high"))) ∧
    categorize (19/100) ⟨1/5, 1/2⟩ = "low" ∧
    categorize (1/5) ⟨1/5, 1/2⟩ = "low" ∧
    categorize (35/100) ⟨1/5, 1/2⟩ = "medium" ∧
    categorize (51/100) ⟨1/5, 1/2⟩ = "high" := by
  refine ⟨?_, by norm_num [categorize], by norm_num [categorize],
    by norm_num [categorize], by norm_num [categorize]⟩
  intro p low medium _ hlm _ _ _
  refine ⟨fun hp => ?_, fun hp1 hp2 => ?_, fun hp => ?_⟩
  · simp [categorize, hp]
  · simp [categorize, not_le.mpr hp1, hp2]
  · have h1 : ¬ p ≤ low := not_le.mpr (lt_of_le_of_lt hlm hp)
    have h2 : ¬ p ≤ medium := not_le.mpr hp
    simp [categorize, h1, h2]

/-- Closed instantiation of `c1_categorize_bands` at concrete inputs. -/
theorem c1_witness :
    categorize (1/10) ⟨1/5, 1/2⟩ = "low" ∧
    categorize (3/10) ⟨1/5, 1/2⟩ = "medium" ∧
    categorize (6/10) ⟨1/5, 1/2⟩ = "high" :=
  ⟨(c1_categorize_bands.1 (1/10) (1/5) (1/2) (by norm_num) (by norm_num)
      (by norm_num) (by norm_num) (by norm_num)).1 (by norm_num),
   (c1_categorize_bands.1 (3/10) (1/5) (1/2) (by norm_num) (by norm_num)
      (by norm_num) (by norm_num) (by norm_num)).2.1 (by norm_num) (by norm_num),
   (c1_categorize_bands.1 (6/10) (1/5) (1/2) (by norm_num) (by norm_num)
      (by norm_num) (by norm_num) (by norm_num)).2.2 (by norm_num)⟩

/-- C4: for valid thresholds (`0 ≤ low ≤ medium ≤ 1`) and `p ∈ [0,1]`,
`categorize` is total (always one of `"low"`, `"medium"`, `"high"`) and
the tier is monotone non-decreasing in `p` under low < medium < high. -/
theorem c4_categorize_total_monotone :
    ∀ (low medium : ℚ), 0 ≤ low → low ≤ medium → medium ≤ 1 →
      (∀ p : ℚ, 0 ≤ p → p ≤ 1 →
        (categorize p ⟨low, medium⟩ = "low" ∨
         categorize p ⟨low, medium⟩ = "medium" ∨
         categorize p ⟨low, medium⟩ = "high")) ∧
      (∀ p1 p2 : ℚ, 0 ≤ p1 → p2 ≤ 1 → p1 ≤ p2 →
        tierRank (categorize p1 ⟨low, medium⟩) ≤
          tierRank (categorize p2 ⟨low, medium⟩)) := by
  intro low medium _ hlm _
  constructor
  · intro p _ _
    unfold categorize
    split
    · exact Or.inl rfl
    · split
      · exact Or.inr (Or.inl rfl)
      · exact Or.inr (Or.inr rfl)
  · intro p1 p2 _ _ h12
    unfold categorize
    split_ifs <;> simp_all [tierRank] <;> linarith

/-- Closed instantiation of `c4_categorize_total_monotone`. -/
theorem c4_witness :
    tierRank (categorize (1/10) ⟨1/5, 1/2⟩) ≤
      tierRank (categorize (6/10) ⟨1/5, 1/2⟩) :=
  (c4_categorize_total_monotone (1/5) (1/2) (by norm_num) (by norm_num)
    (by norm_num)).2 (1/10) (6/10) (by norm_num) (by norm_num) (by norm_num)

/-- For an in-bounds index, `getD` commutes with `map` (defaults are unused). -/
theorem listGetDMap {α β : Type} (f : α → β) (dA : α) (dB : β) :
    ∀ (xs : List α) (i : ℕ), i < xs.length →
      (xs.map f).getD i dB = f (xs.getD i dA)
  | [], i, hi => absurd hi (by simp)
  | _ :: _, 0, _ => rfl
  | _ :: xs, i + 1, hi => by
      simpa [List.getD_cons_succ] using
        listGetDMap f dA dB xs i (by simpa using hi)

/-- C3: in the /predict handler, whenever the scoring pipeline raises an
exception, the response has `prob_default = min(max(credit_amount/20000, 0.1), 0.9)`
and `risk` its categorization under the loaded thresholds; no error is
surfaced to the caller. -/
theorem c3_predict_fallback :
    ∀ (classify : List Cell → Except String ℚ) (cols : List String)
      (thr : Thresholds) (sample : CreditRequest) (e : String),
      classify (encodeRow (buildRow sample cols)) = .error e →
      predictHandler classify cols thr sample =
        ⟨min (max ((sample.credit_amount : ℚ) / 20000) (1/10)) (9/10),
         categorize (min (max ((sample.credit_amount : ℚ) / 20000) (1/10)) (9/10)) thr⟩ := by
  intro classify cols thr sample e he
  simp [predictHandler, he, fallbackProb]

/-- Closed instantiation of `c3_predict_fallback`: `sampleA` has
`credit_amount = 5000`, so the fallback is `1/4`, categorized `"medium"`. -/
theorem c3_witness :
    predictHandler (fun _ => .error "predict_proba failed") []
        ⟨1/5, 1/2⟩ sampleA = ⟨1/4, "medium"⟩ :=
  (c3_predict_fallback (fun _ => .error "predict_proba failed") []
      ⟨1/5, 1/2⟩ sampleA "predict_proba failed" rfl).trans
    (by norm_num [sampleA, categorize])

/-- C5: /predict_batch returns exactly as many results as it gets samples,
in order (`[]` for `[]`), and—when a pipe is loaded—its i-th result is
exactly the single-record /predict result for the i-th sample (the batch is
the elementwise map of the single-record handler, with no cross-record
dependence). -/
theorem c5_batch_matches_single :
    ∀ (pipe : Option (List Cell → Except String ℚ)) (cols : List String)
      (thr : Thresholds) (samples : List CreditRequest),
      (predictBatch pipe cols thr samples).length = samples.length ∧
      predictBatch pipe cols thr [] = [] ∧
      ∀ f : List Cell → Except String ℚ,
        predictBatch (some f) cols thr samples =
          samples.map (fun s => predictHandler f cols thr s) ∧
        ∀ s : CreditRequest,
          predictEndpoint (some f) cols thr s = .ok (predictHandler f cols thr s) := by
  intro pipe cols thr samples
  refine ⟨by simp [predictBatch], rfl, fun f => ⟨?_, fun s => rfl⟩⟩
  simp [predictBatch, predictEndpoint]

/-- C6: aligning a record to `feature_columns` is total (one output cell per
requested column, never a rejection), fills every requested column that is
absent from the record with the null marker, and is exactly the operation
used on the single-record path (`buildRow`). -/
theorem c6_reindex_fills_missing :
    ∀ (record : String → Option Cell) (cols : List String),
      (reindexRecord record cols).length = cols.length ∧
      (∀ i, i < cols.length → record (cols.getD i "") = none →
        (reindexRecord record cols).getD i (Cell.num 0) = Cell.null) ∧
      ∀ s : CreditRequest, buildRow s cols = reindexRecord s.toRecord cols := by
  intro record cols
  refine ⟨by simp [reindexRecord], ?_, fun s => rfl⟩
  intro i hi hnone
  show (cols.map fun c => (record c).getD Cell.null).getD i (Cell.num 0) = Cell.null
  rw [listGetDMap _ "" _ cols i hi, hnone]
  rfl

/-- Closed instantiation of `c6_reindex_fills_missing`: the empty record still
yields a row, with the missing column `"age"` filled by null. -/
theorem c6_witness :
    (reindexRecord (fun _ => none) ["age"]).getD 0 (Cell.num 0) = Cell.null :=
  (c6_reindex_fills_missing (fun _ => none) ["age"]).2.1 0 (by decide) rfl

/-- A one-row object column `[v]` has category list `[v]`, so the code of its
single value is 0. -/
theorem catCode_single (v : String) : catCode (categoriesOf [v]) v = 0 := by
  have hd : ([v] : List String).dedup = [v] := by simp
  simp [categoriesOf, catCode, hd, sortStrings, insertSorted, List.findIdx_cons]

/-- If two key/value lists agree key-for-key and their values are
indistinguishable after encoding, then looking up any key and encoding the
result (null when absent) gives the same cell. -/
theorem lookup_encode_rel (c : String) :
    ∀ (ps qs : List (String × Cell)),
      List.Forall₂
        (fun p q : String × Cell =>
          p.1 = q.1 ∧ encodeSingleRowCell p.2 = encodeSingleRowCell q.2) ps qs →
      encodeSingleRowCell ((ps.lookup c).getD Cell.null) =
        encodeSingleRowCell ((qs.lookup c).getD Cell.null) := by
  intro ps qs h
  induction h with
  | nil => rfl
  | cons hpq _ ih =>
    obtain ⟨hk, hv⟩ := hpq
    rename_i p q ps1 qs1 _
    simp only [List.lookup, hk]
    cases hqc : (c == q.1) with
    | true => simpa [hqc] using hv
    | false => simpa [hqc] using ih

/-- Column by column, the encoded cell built from a request depends only on
its numeric fields: string fields encode to code 0 regardless of value. -/
theorem encode_lookup_eq (s1 s2 : CreditRequest)
    (hdur : s1.duration = s2.duration)
    (hamt : s1.credit_amount = s2.credit_amount)
    (hins : s1.installment_commitment = s2.installment_commitment)
    (hres : s1.residence_since = s2.residence_since)
    (hage : s1.age = s2.age)
    (hexc : s1.existing_credits = s2.existing_credits)
    (hnum : s1.num_dependents = s2.num_dependents) :
    ∀ c, encodeSingleRowCell ((s1.toRecord c).getD Cell.null) =
      encodeSingleRowCell ((s2.toRecord c).getD Cell.null) := by
  intro c
  refine lookup_encode_rel c s1.fieldPairs s2.fieldPairs ?_
  simp only [CreditRequest.fieldPairs, List.forall₂_cons, List.Forall₂.nil,
    encodeSingleRowCell, catCode_single, hdur, hamt, hins, hres, hage, hexc,
    hnum, true_and, and_true, and_self]

/-- C10: the per-request categorical encoding maps every non-null string value
to code 0; hence two fully-populated requests with equal numeric fields yield
the same encoded feature matrix and the same /predict response, whatever
their string fields. -/
theorem c10_encoding_ignores_strings :
    ∀ (s1 s2 : CreditRequest),
      s1.duration = s2.duration → s1.credit_amount = s2.credit_amount →
      s1.installment_commitment = s2.installment_commitment →
      s1.residence_since = s2.residence_since → s1.age = s2.age →
      s1.existing_credits = s2.existing_credits →
      s1.num_dependents = s2.num_dependents →
      (∀ v : String, encodeSingleRowCell (Cell.str v) = Cell.num 0) ∧
      ∀ (classify : List Cell → Except String ℚ) (cols : List String)
        (thr : Thresholds),
        encodeRow (buildRow s1 cols) = encodeRow (buildRow s2 cols) ∧
        predictHandler classify cols thr s1 = predictHandler classify cols thr s2 := by
  intro s1 s2 h1 h2 h3 h4 h5 h6 h7
  have hcell := encode_lookup_eq s1 s2 h1 h2 h3 h4 h5 h6 h7
  refine ⟨fun v => by simp [encodeSingleRowCell, catCode_single v],
    fun classify cols thr => ?_⟩
  have hrow : encodeRow (buildRow s1 cols) = encodeRow (buildRow s2 cols) := by
    simp only [encodeRow, buildRow, reindexRecord, List.map_map]
    exact List.map_congr_left fun c _ => hcell c
  refine ⟨hrow, ?_⟩
  have hfb : fallbackProb s1 = fallbackProb s2 := by simp [fallbackProb, h2]
  unfold predictHandler
  rw [hrow, hfb]

/-- Closed instantiation of `c10_encoding_ignores_strings`: `sampleA` and
`sampleB` differ in all thirteen string fields yet get the same response. -/
theorem c10_witness :
    predictHandler (fun _ => .error "boom") ["checking_status", "age"]
        ⟨1/5, 1/2⟩ sampleA =
      predictHandler (fun _ => .error "boom") ["checking_status", "age"]
        ⟨1/5, 1/2⟩ sampleB :=
  ((c10_encoding_ignores_strings sampleA sampleB rfl rfl rfl rfl rfl rfl rfl).2
    (fun _ => .error "boom") ["checking_status", "age"] ⟨1/5, 1/2⟩).2

/-- C2 counterexample: a bundle whose classifier's labels are
`["good", "excellent"]` (no `"bad"`) is loaded by the API's `_load_bundle`
without any error — it resolves `_PROBA_IDX` to the default 1 instead of
failing loudly, refuting the claim for the API bundle-loading path. -/
theorem c2_counterexample :
    ("bad" ∈ ["good", "excellent"] → False) ∧
    (apiLoadBundle (fun _ => some noBadBundle) "models/credit_model.joblib").toOption.map
        LoadedState.probaIdx = some 1 := by
  exact ⟨by decide, rfl⟩

/-- C2 amended: when the classifier's labels lack `"bad"` (or the pipe has no
`classes_` at all), the single-record predictor fails loudly (ValueError /
AttributeError), but the API's bundle loader succeeds and silently resolves
the probability index to the default 1. -/
theorem c2_amended :
    ∀ (fs : String → Option RawBundle) (path : String) (b : RawBundle)
      (pipe : Pipe) (fc : List String),
      fs path = some b → b.pipeline = some pipe → b.featureColumns = some fc →
      (∀ cs, pipe.classes = some cs → "bad" ∉ cs →
        (∀ record, predict_from_dict fs record (some path) = .error .valueError) ∧
        apiLoadBundle fs path =
          .ok ⟨pipe, fc, b.thresholds.getD defaultThresholds, 1⟩) ∧
      (pipe.classes = none →
        (∀ record, predict_from_dict fs record (some path) = .error .attributeError) ∧
        apiLoadBundle fs path =
          .ok ⟨pipe, fc, b.thresholds.getD defaultThresholds, 1⟩) := by
  intro fs path b pipe fc hb hp hf
  constructor
  · intro cs hcs hbad
    constructor
    · intro record
      simp [predict_from_dict, hb, hp, hf, hcs, hbad]
    · simp [apiLoadBundle, hb, hp, hf, apiResolveProbaIdx, hcs, hbad]
  · intro hcs
    constructor
    · intro record
      simp [predict_from_dict, hb, hp, hf, hcs]
    · simp [apiLoadBundle, hb, hp, hf, apiResolveProbaIdx, hcs]

/-- Closed instantiation of `c2_amended` on `noBadBundle`. -/
theorem c2_witness :
    predict_from_dict (fun _ => some noBadBundle) (fun _ => none)
        (some "models/credit_model.joblib") = .error .valueError ∧
    apiLoadBundle (fun _ => some noBadBundle) "models/credit_model.joblib" =
      .ok ⟨noBadPipe, ["age"], ⟨1/5, 1/2⟩, 1⟩ := by
  have h := (c2_amended (fun _ => some noBadBundle) "models/credit_model.joblib"
    noBadBundle noBadPipe ["age"] rfl rfl rfl).1 ["good", "excellent"] rfl (by decide)
  exact ⟨h.1 (fun _ => none), h.2⟩

/-- C7 counterexample: in a filesystem state where the best bundle exists,
the single-sample predictor resolves it, but the batch CLI without an
explicit model path still resolves the plain default path — it never
considers the best bundle, refuting the claim for the batch CLI. -/
theorem c7_counterexample :
    resolveModelPathBatch none = "models/credit_model.joblib" ∧
    resolveModelPathPredict (fun _ => true) = "models/credit_model_best.joblib" ∧
    resolveModelPathBatch none ≠ resolveModelPathPredict (fun _ => true) := by
  exact ⟨rfl, rfl, by decide⟩

/-- C7 amended: the API startup loader and the single-sample predictor check
the best path first and fall back to the default (first existing wins, and
the resolved path is the one actually loaded); the batch CLI's default is
always the default bundle path, with no best-path check. -/
theorem c7_amended :
    ∀ fsHas : String → Bool,
      (fsHas bestPath = true →
        resolveModelPathPredict fsHas = bestPath ∧
        resolveModelPathApi fsHas = bestPath) ∧
      (fsHas bestPath = false →
        resolveModelPathPredict fsHas = defaultPath ∧
        resolveModelPathApi fsHas = defaultPath) ∧
      (∀ (fs : String → Option RawBundle) (record : String → Option Cell),
        predict_from_dict fs record none =
          predict_from_dict fs record
            (some (resolveModelPathPredict fun q => (fs q).isSome))) ∧
      (∀ fs : String → Option RawBundle,
        apiStartup fs = apiLoadBundle fs (resolveModelPathApi fun q => (fs q).isSome)) ∧
      resolveModelPathBatch none = defaultPath ∧
      ∀ p, resolveModelPathBatch (some p) = p := by
  intro fsHas
  refine ⟨fun h => ?_, fun h => ?_, fun fs record => rfl, fun fs => rfl, rfl,
    fun p => rfl⟩
  · constructor <;> simp [resolveModelPathPredict, resolveModelPathApi, h]
  · constructor <;> simp [resolveModelPathPredict, resolveModelPathApi, h]

/-- Closed instantiation of `c7_amended` at both filesystem states. -/
theorem c7_witness :
    resolveModelPathPredict (fun _ => true) = bestPath ∧
    resolveModelPathPredict (fun _ => false) = defaultPath :=
  ⟨((c7_amended (fun _ => true)).1 rfl).1,
   ((c7_amended (fun _ => false)).2.1 rfl).1⟩

/-- C8: a missing bundle file makes both the API loader and the single-record
predictor fail with the not-found error, and an existing bundle that lacks
`feature_columns` makes both fail with the corresponding KeyError; in all
four cases the result is an error, never a scoring result. -/
theorem c8_load_failures :
    ∀ (fs : String → Option RawBundle) (path : String),
      (fs path = none →
        apiLoadBundle fs path = .error .notFound ∧
        ∀ record, predict_from_dict fs record (some path) = .error .notFound) ∧
      ∀ b pipe, fs path = some b → b.featureColumns = none →
        b.pipeline = some pipe →
        apiLoadBundle fs path = .error .keyErrorFeatureColumns ∧
        ∀ record, predict_from_dict fs record (some path) =
          .error .keyErrorFeatureColumns := by
  intro fs path
  constructor
  · intro h
    exact ⟨by simp [apiLoadBundle, h], fun record => by simp [predict_from_dict, h]⟩
  · intro b pipe hb hfc hp
    exact ⟨by simp [apiLoadBundle, hb, hp, hfc],
      fun record => by simp [predict_from_dict, hb, hp, hfc]⟩

/-- Closed instantiation of `c8_load_failures`: the empty filesystem and a
bundle without `feature_columns`. -/
theorem c8_witness :
    apiLoadBundle (fun _ => none) "models/credit_model.joblib" = .error .notFound ∧
    predict_from_dict (fun _ => none) (fun _ => none)
      (some "models/credit_model.joblib") = .error .notFound ∧
    apiLoadBundle (fun _ => some corruptBundle) "models/credit_model.joblib" =
      .error .keyErrorFeatureColumns :=
  ⟨((c8_load_failures (fun _ => none) "models/credit_model.joblib").1 rfl).1,
   ((c8_load_failures (fun _ => none) "models/credit_model.joblib").1 rfl).2
     (fun _ => none),
   ((c8_load_failures (fun _ => some corruptBundle) "models/credit_model.joblib").2
     corruptBundle ⟨some ["good", "bad"], fun _ _ => 0⟩ rfl rfl rfl).1⟩

/-- Appending one computed column to every row of a frame, as a map. -/
theorem zip_map_append (g : List Cell → List Cell) (h : List Cell → Cell) :
    ∀ xs : List (List Cell),
      ((xs.map g).zip (xs.map h)).map (fun rv => rv.1 ++ [rv.2]) =
        xs.map fun r => g r ++ [h r]
  | [] => rfl
  | _ :: xs => congrArg (List.cons _) (zip_map_append g h xs)

/-- Like `zip_map_append` with the first list unmapped. -/
theorem zip_map_append1 (h : List Cell → Cell) :
    ∀ xs : List (List Cell),
      (xs.zip (xs.map h)).map (fun rv => rv.1 ++ [rv.2]) =
        xs.map fun r => r ++ [h r]
  | [] => rfl
  | _ :: xs => congrArg (List.cons _) (zip_map_append1 h xs)

/-- Applying `dfSetCol` with a fresh column name appends the column on the right. -/
theorem dfSetCol_fresh (d : Df) (name : String) (vals : List Cell)
    (h : name ∉ d.cols) :
    dfSetCol d name vals =
      ⟨d.cols ++ [name], (d.rows.zip vals).map fun rv => rv.1 ++ [rv.2]⟩ := by
  rw [dfSetCol, if_neg h]

/-- Normal form of the batch runner's output frame when the two new column
names are fresh. -/
theorem batchMain_eq (fc : List String) (thr : Thresholds)
    (model : List Cell → ℚ) (df : Df)
    (hpd : "prob_default" ∉ df.cols) (hrk : "risk" ∉ df.cols) :
    batchMain fc thr model df =
      ⟨df.cols ++ ["prob_default", "risk"],
       df.rows.map fun r =>
         r ++ [Cell.num (model (reindexRecord (lookupCol df.cols r) fc)),
               Cell.str (categorize (model (reindexRecord (lookupCol df.cols r) fc)) thr)]⟩ := by
  have hrk2 : "risk" ∉ df.cols ++ ["prob_default"] := by
    intro h
    rcases List.mem_append.mp h with h1 | h1
    · exact hrk h1
    · exact absurd (List.mem_singleton.mp h1) (by decide)
  have hprobs : ((reindexDf df fc).map model).map Cell.num
      = df.rows.map fun r =>
          Cell.num (model (reindexRecord (lookupCol df.cols r) fc)) := by
    simp [reindexDf, List.map_map]
  have hrisks : (((reindexDf df fc).map model).map fun p => categorize p thr).map Cell.str
      = df.rows.map fun r =>
          Cell.str (categorize (model (reindexRecord (lookupCol df.cols r) fc)) thr) := by
    simp [reindexDf, List.map_map]
  have hrk3 : "risk" ∉
      (Df.mk (df.cols ++ ["prob_default"])
        ((df.rows.zip (df.rows.map fun r =>
          Cell.num (model (reindexRecord (lookupCol df.cols r) fc)))).map
            fun rv => rv.1 ++ [rv.2])).cols := hrk2
  unfold batchMain
  rw [hprobs, hrisks, dfSetCol_fresh df "prob_default" _ hpd,
    dfSetCol_fresh _ "risk" _ hrk3]
  rw [zip_map_append1]
  congr 1
  · simp
  · rw [zip_map_append]
    exact List.map_congr_left fun r _ => by simp

/-- C9: for an input frame with no `prob_default` or `risk` column, the batch
runner's output keeps every input column and every input row value
unchanged and in order, and appends exactly the two columns `prob_default`
and `risk`, row `i` getting that row's computed probability and tier. -/
theorem c9_batch_csv_appends :
    ∀ (fc : List String) (thr : Thresholds) (model : List Cell → ℚ) (df : Df),
      "prob_default" ∉ df.cols → "risk" ∉ df.cols →
      (batchMain fc thr model df).cols = df.cols ++ ["prob_default", "risk"] ∧
      (batchMain fc thr model df).rows.length = df.rows.length ∧
      ∀ i, i < df.rows.length →
        (batchMain fc thr model df).rows.getD i [] =
          df.rows.getD i [] ++
            [Cell.num (batchRowScore df fc model i),
             Cell.str (categorize (batchRowScore df fc model i) thr)] := by
  intro fc thr model df hpd hrk
  rw [batchMain_eq fc thr model df hpd hrk]
  refine ⟨rfl, by simp, ?_⟩
  intro i hi
  rw [listGetDMap _ [] _ df.rows i hi]
  simp [batchRowScore]

/-- Closed instantiation of `c9_batch_csv_appends` on a one-row frame. -/
theorem c9_witness :
    (batchMain ["amount"] ⟨1/5, 1/2⟩ (fun _ => 3/5)
        ⟨["amount"], [[Cell.num 1000]]⟩).cols = ["amount", "prob_default", "risk"] ∧
    (batchMain ["amount"] ⟨1/5, 1/2⟩ (fun _ => 3/5)
        ⟨["amount"], [[Cell.num 1000]]⟩).rows.getD 0 [] =
      [Cell.num 1000, Cell.num (3/5), Cell.str "high"] := by
  have h := c9_batch_csv_appends ["amount"] ⟨1/5, 1/2⟩ (fun _ => 3/5)
    ⟨["amount"], [[Cell.num 1000]]⟩ (by decide) (by decide)
  refine ⟨h.1, (h.2.2 0 (by decide)).trans ?_⟩
  norm_num [batchRowScore, categorize]

end CreditScore
